import Mathlib

/-!
Verification of the RPC Test Server client script
(`examples/client_example.py`).

The script is a sequential HTTP client: every operation issues exactly one
HTTP request and inspects the response.  We embed it shallowly:

* a JSON value is the inductive `Json`;
* the outcome of one HTTP request is `HttpResult`: either a response with a
  status code and a parsed JSON body, or a network error (the Python
  `requests.exceptions.RequestException` caught by every operation);
* each client function becomes a pure function of the `HttpResult` of the
  single request it makes; the polling loop `wait_for_test_completion`
  takes the stream of results of its successive status requests as a
  function `Nat → HttpResult`, and time is discretised so that poll `k`
  happens at elapsed time `5 * k` seconds (the fixed 5-second sleep, with
  the request itself taking no time);
* the driver `main` takes the results of all requests of its fixed
  demonstration sequence and returns the process exit outcome together
  with the trace of steps it executed.
-/

/-- A parsed JSON value, as handed back by `response.json()`. -/
inductive Json where
  | str (s : String)
  | num (n : Int)
  | bool (b : Bool)
  | null
  | arr (elems : List Json)
  | obj (fields : List (String × Json))

/-- Lookup of a key in a JSON object field list (Python `dict.get(key)`
with no default: `none` when the key is absent). -/
def lookupField : List (String × Json) → String → Option Json
  | [], _ => none
  | (k, v) :: rest, key => if k = key then some v else lookupField rest key

/-- Python `result.get(key)` on a parsed JSON document: field lookup on an
object, `none` (Python `None`) otherwise. -/
def Json.get (j : Json) (key : String) : Option Json :=
  match j with
  | .obj fields => lookupField fields key
  | _ => none

/-- Python equality test `v == "lit"` between a JSON value and a string
literal: true exactly when `v` is that string. -/
def Json.isStr (j : Json) (s : String) : Bool :=
  match j with
  | .str t => t = s
  | _ => false

/-- Python equality test `x == "lit"` where `x` may be `None`
(`None == "lit"` is `False`). -/
def pyEqStr (x : Option Json) (s : String) : Bool :=
  match x with
  | some v => v.isStr s
  | none => false

/-- Python truthiness of a JSON value: `None`, `""`, `0`, `False`, `[]`
and the empty object are falsy. -/
def Json.isFalsy (j : Json) : Bool :=
  match j with
  | .str s => s = ""
  | .num n => n = 0
  | .bool b => !b
  | .null => true
  | .arr elems => elems.isEmpty
  | .obj fields => fields.isEmpty

/-- Python truthiness of an optional JSON value (`not x` on a value that
may be `None`): falsy when missing or when the value itself is falsy. -/
def pyFalsy (x : Option Json) : Bool :=
  match x with
  | some v => v.isFalsy
  | none => true

/-- The outcome of one HTTP request made with `requests`: either a
response (status code and parsed JSON body) or a caught
`RequestException` (network error). -/
inductive HttpResult where
  | ok (statusCode : Nat) (body : Json)
  | netError

/-- The hard-coded request body of `start_test`: a test configuration with
method-specific settings. -/
def method_test_config : Json :=
  .obj
    [ ("remote_rpc_url", .str "https://us.rpc.fluxbeam.xyz"),
      ("rpc_apikey", .str "YOUR_API_KEY_HERE"),
      ("programs", .arr [.str "2wT8Yq49kHgDzXuPxZSaeLaH1qbmGXtEyPy64bL7aD3c"]),
      ("target_rpc_url", .str "https://api.mainnet-beta.solana.com"),
      ("global_config", .obj
        [ ("concurrency", .num 5), ("duration", .num 15), ("limit", .num 0) ]),
      ("methods", .obj
        [ ("getAccountInfo", .obj
            [ ("concurrency", .num 10), ("duration", .num 20),
              ("limit", .num 50), ("enabled", .bool true) ]),
          ("getMultipleAccounts", .obj
            [ ("concurrency", .num 5), ("duration", .num 15),
              ("limit", .num 100), ("enabled", .bool true) ]),
          ("getProgramAccounts", .obj
            [ ("concurrency", .num 3), ("duration", .num 10),
              ("limit", .num 25), ("enabled", .bool false) ]) ]) ]

/-- The hard-coded request body of `start_simple_test`: only a target URL
and a global configuration, no `methods` key. -/
def simple_test_config : Json :=
  .obj
    [ ("target_rpc_url", .str "https://api.mainnet-beta.solana.com"),
      ("global_config", .obj
        [ ("concurrency", .num 3), ("duration", .num 10) ]) ]

/-- `start_test`: POST `/test`.  On HTTP 200 it returns
`result.get("test_id")` (which is `None` when the field is absent); on any
other status code, and on a network error, it returns `None`. -/
def start_test (r : HttpResult) : Option Json :=
  match r with
  | .ok code body => if code = 200 then body.get "test_id" else none
  | .netError => none

/-- `start_simple_test`: POST `/test` with `simple_test_config`; the
response handling is identical to `start_test`. -/
def start_simple_test (r : HttpResult) : Option Json :=
  match r with
  | .ok code body => if code = 200 then body.get "test_id" else none
  | .netError => none

/-- `get_test_status`: GET `/test/id`.  On HTTP 200 it returns
`result.get("status", "unknown")` — the `status` field, defaulting to the
string `"unknown"` when the field is absent; on any other status code, and
on a network error, it returns `None`. -/
def get_test_status (r : HttpResult) : Option Json :=
  match r with
  | .ok code body =>
      if code = 200 then some ((body.get "status").getD (.str "unknown"))
      else none
  | .netError => none

/-- `get_test_results`: GET `/test/id`.  On HTTP 200 it returns the full
body when `result.get("status") == "completed"` and `None` otherwise
(test still running); on any other status code, and on a network error,
it returns `None`. -/
def get_test_results (r : HttpResult) : Option Json :=
  match r with
  | .ok code body =>
      if code = 200 then
        if pyEqStr (body.get "status") "completed" then some body else none
      else none
  | .netError => none

/-- The console message class emitted by `get_test_results`, one case per
branch of the Python function: results printed, a "still running" note, a
"failed to get test results" error with the status code, or a "network
error" report. -/
inductive ResultsMsg where
  | resultsPrinted
  | stillRunning
  | httpError (statusCode : Nat)
  | networkError
deriving DecidableEq

/-- Which console message `get_test_results` prints, branch for branch
with the source: this is what distinguishes the logical "not yet ready"
outcome from the two error outcomes even though all three return `None`. -/
def get_test_results_msg (r : HttpResult) : ResultsMsg :=
  match r with
  | .ok code body =>
      if code = 200 then
        if pyEqStr (body.get "status") "completed" then .resultsPrinted
        else .stillRunning
      else .httpError code
  | .netError => .networkError

/-- `list_all_tests`: GET `/tests`.  Returns the body on HTTP 200, `None`
on any other status code and on a network error. -/
def list_all_tests (r : HttpResult) : Option Json :=
  match r with
  | .ok code body => if code = 200 then some body else none
  | .netError => none

/-- `delete_test`: DELETE `/test/id`.  Returns `True` on HTTP 200,
`False` on any other status code and on a network error. -/
def delete_test (r : HttpResult) : Bool :=
  match r with
  | .ok code _ => code = 200
  | .netError => false

/-- The polling loop of `wait_for_test_completion` from poll index `k`
onward.  `polls i` is the result of the `i`-th status request; poll `k`
happens at elapsed time `5 * k` seconds (the loop re-enters only while
the elapsed time is below `maxWait`).  The body mirrors the Python loop:
status `"completed"` returns `True`; `"failed"` returns `False`; a failed
status call (`None`) returns `False`; anything else sleeps 5 seconds and
polls again; leaving the `while` returns `False` (timeout). -/
def waitFrom (polls : Nat → HttpResult) (maxWait k : Nat) : Bool :=
  if _h : 5 * k < maxWait then
    if pyEqStr (get_test_status (polls k)) "completed" then true
    else if pyEqStr (get_test_status (polls k)) "failed" then false
    else if (get_test_status (polls k)).isNone then false
    else waitFrom polls maxWait (k + 1)
  else false
termination_by maxWait - 5 * k
decreasing_by simp_wf; omega

/-- `wait_for_test_completion(test_id, max_wait_time)`: the polling loop
started at poll index 0 (elapsed time 0). -/
def wait_for_test_completion (polls : Nat → HttpResult) (maxWait : Nat) : Bool :=
  waitFrom polls maxWait 0

/-- The polling loop instrumented with the number of status requests it
issues, branch for branch the same as `waitFrom`. -/
def waitFromCount (polls : Nat → HttpResult) (maxWait k : Nat) : Bool × Nat :=
  if _h : 5 * k < maxWait then
    if pyEqStr (get_test_status (polls k)) "completed" then (true, 1)
    else if pyEqStr (get_test_status (polls k)) "failed" then (false, 1)
    else if (get_test_status (polls k)).isNone then (false, 1)
    else
      ((waitFromCount polls maxWait (k + 1)).1,
       (waitFromCount polls maxWait (k + 1)).2 + 1)
  else (false, 0)
termination_by maxWait - 5 * k
decreasing_by all_goals simp_wf; omega

/-- `wait_for_test_completion` together with the number of polls made. -/
def wait_for_test_completion_count (polls : Nat → HttpResult) (maxWait : Nat) :
    Bool × Nat :=
  waitFromCount polls maxWait 0

/-- A poll result on which the loop keeps going: the status call
succeeded and reported neither `"completed"` nor `"failed"`. -/
def NonTerminal (r : HttpResult) : Prop :=
  ∃ s, get_test_status r = some s ∧
    s.isStr "completed" = false ∧ s.isStr "failed" = false

/-- The results of every HTTP request `main` can make, in the order of
its fixed demonstration sequence. -/
structure Interactions where
  health : HttpResult
  listBefore : HttpResult
  start : HttpResult
  statusPolls : Nat → HttpResult
  results : HttpResult
  listAfter : HttpResult
  delete : HttpResult

/-- Process exit outcome of `main`: normal return (exit code 0) or
`sys.exit(1)`. -/
inductive ExitCode where
  | success
  | failure
deriving DecidableEq

/-- One step of `main`'s demonstration sequence, for the execution
trace. -/
inductive Step where
  | healthCheck
  | listTests
  | startTest
  | waitForCompletion
  | getResults
  | deleteTest
deriving DecidableEq

/-- The `main` function of the script (named `mainDriver` here because
`main` is reserved): health check, list, start, wait, (results on wait
success), list, delete.  Returns the exit outcome and the trace of steps
executed.  `sys.exit(1)` happens only when the health check gets a
network error or a non-200 response, or when `start_test` returns a
falsy test id (Python `if not test_id`). -/
def mainDriver (env : Interactions) : ExitCode × List Step :=
  match env.health with
  | .netError => (.failure, [.healthCheck])
  | .ok code _ =>
      if code = 200 then
        let testId := start_test env.start
        if pyFalsy testId then
          (.failure, [.healthCheck, .listTests, .startTest])
        else
          let waited := wait_for_test_completion env.statusPolls 300
          (.success,
            [.healthCheck, .listTests, .startTest, .waitForCompletion] ++
              (if waited then [.getResults] else []) ++
              [.listTests, .deleteTest])
      else (.failure, [.healthCheck])

/-! ### Helper lemmas -/

theorem pyEqStr_true_iff (x : Option Json) (s : String) :
    pyEqStr x s = true ↔ x = some (Json.str s) := by
  cases x with
  | none => simp [pyEqStr]
  | some v => cases v <;> simp [pyEqStr, Json.isStr]

theorem waitFrom_timeout (polls : Nat → HttpResult) (maxWait k : Nat)
    (h : ¬ 5 * k < maxWait) : waitFrom polls maxWait k = false := by
  rw [waitFrom, dif_neg h]

theorem waitFrom_completed (polls : Nat → HttpResult) (maxWait k : Nat)
    (h : 5 * k < maxWait)
    (hs : get_test_status (polls k) = some (Json.str "completed")) :
    waitFrom polls maxWait k = true := by
  rw [waitFrom, dif_pos h, hs]
  simp [pyEqStr, Json.isStr]

theorem waitFrom_failed (polls : Nat → HttpResult) (maxWait k : Nat)
    (h : 5 * k < maxWait)
    (hs : get_test_status (polls k) = some (Json.str "failed")) :
    waitFrom polls maxWait k = false := by
  rw [waitFrom, dif_pos h, hs]
  simp [pyEqStr, Json.isStr]

theorem waitFrom_statusFailure (polls : Nat → HttpResult) (maxWait k : Nat)
    (h : 5 * k < maxWait) (hs : get_test_status (polls k) = none) :
    waitFrom polls maxWait k = false := by
  rw [waitFrom, dif_pos h, hs]
  simp [pyEqStr]

theorem waitFrom_step (polls : Nat → HttpResult) (maxWait k : Nat)
    (h : 5 * k < maxWait) (hnt : NonTerminal (polls k)) :
    waitFrom polls maxWait k = waitFrom polls maxWait (k + 1) := by
  obtain ⟨s, hs, hc, hf⟩ := hnt
  rw [waitFrom, dif_pos h, hs]
  simp [pyEqStr, hc, hf]

theorem waitFrom_skip (polls : Nat → HttpResult) (maxWait j : Nat)
    (hj : 5 * j < maxWait) (hpre : ∀ i, i < j → NonTerminal (polls i)) :
    ∀ fuel k, j - k ≤ fuel → k ≤ j →
      waitFrom polls maxWait k = waitFrom polls maxWait j := by
  intro fuel
  induction fuel with
  | zero =>
    intro k h1 h2
    have hkj : k = j := by omega
    subst hkj; rfl
  | succ fuel ih =>
    intro k h1 h2
    by_cases hkj : k = j
    · subst hkj; rfl
    · have hlt : k < j := by omega
      have h5 : 5 * k < maxWait := by omega
      rw [waitFrom_step polls maxWait k h5 (hpre k hlt)]
      exact ih (k + 1) (by omega) (by omega)

theorem waitFrom_allNonTerminal (polls : Nat → HttpResult) (maxWait : Nat)
    (H : ∀ i, 5 * i < maxWait → NonTerminal (polls i)) :
    ∀ fuel k, maxWait - 5 * k ≤ fuel → waitFrom polls maxWait k = false := by
  intro fuel
  induction fuel with
  | zero =>
    intro k hk
    exact waitFrom_timeout polls maxWait k (by omega)
  | succ fuel ih =>
    intro k hk
    by_cases h : 5 * k < maxWait
    · rw [waitFrom_step polls maxWait k h (H k h)]
      exact ih (k + 1) (by omega)
    · exact waitFrom_timeout polls maxWait k h

theorem waitFromCount_timeout (polls : Nat → HttpResult) (maxWait k : Nat)
    (h : ¬ 5 * k < maxWait) : waitFromCount polls maxWait k = (false, 0) := by
  rw [waitFromCount, dif_neg h]

theorem waitFromCount_step (polls : Nat → HttpResult) (maxWait k : Nat)
    (h : 5 * k < maxWait) (hnt : NonTerminal (polls k)) :
    waitFromCount polls maxWait k =
      ((waitFromCount polls maxWait (k + 1)).1,
       (waitFromCount polls maxWait (k + 1)).2 + 1) := by
  obtain ⟨s, hs, hc, hf⟩ := hnt
  rw [waitFromCount, dif_pos h, hs]
  simp [pyEqStr, hc, hf]

theorem waitFromCount_allNonTerminal (polls : Nat → HttpResult) (maxWait : Nat)
    (H : ∀ i, 5 * i < maxWait → NonTerminal (polls i)) :
    ∀ fuel k, maxWait - 5 * k ≤ fuel →
      waitFromCount polls maxWait k = (false, (maxWait + 4) / 5 - k) := by
  intro fuel
  induction fuel with
  | zero =>
    intro k hk
    rw [waitFromCount_timeout polls maxWait k (by omega)]
    have : (maxWait + 4) / 5 - k = 0 := by omega
    rw [this]
  | succ fuel ih =>
    intro k hk
    by_cases h : 5 * k < maxWait
    · rw [waitFromCount_step polls maxWait k h (H k h), ih (k + 1) (by omega)]
      have : (maxWait + 4) / 5 - (k + 1) + 1 = (maxWait + 4) / 5 - k := by omega
      simp [this]
    · rw [waitFromCount_timeout polls maxWait k h]
      have : (maxWait + 4) / 5 - k = 0 := by omega
      rw [this]

theorem waitFrom_shift (polls : Nat → HttpResult) (maxWait : Nat) :
    ∀ fuel k, maxWait - 5 * (k + 1) ≤ fuel →
      waitFrom polls maxWait (k + 1) =
        waitFrom (fun i => polls (i + 1)) (maxWait - 5) k := by
  intro fuel
  induction fuel with
  | zero =>
    intro k hk
    rw [waitFrom_timeout polls maxWait (k + 1) (by omega),
        waitFrom_timeout _ (maxWait - 5) k (by omega)]
  | succ fuel ih =>
    intro k hk
    by_cases h : 5 * (k + 1) < maxWait
    · have h' : 5 * k < maxWait - 5 := by omega
      rw [waitFrom, dif_pos h]
      conv_rhs => rw [waitFrom, dif_pos h']
      split_ifs <;> first | rfl | exact ih (k + 1) (by omega)
    · rw [waitFrom_timeout polls maxWait (k + 1) h,
          waitFrom_timeout _ (maxWait - 5) k (by omega)]

/-! ### Claim theorems -/

/-- C1: for every test id and every sequence of statuses returned by
`get_test_status`, `wait_for_test_completion` returns `True` immediately
after the first poll that reports `"completed"`, returns `False`
immediately when a poll reports `"failed"`, and returns `False`
immediately when the status call itself fails (`get_test_status` returns
`None`), sleeping a fixed 5 seconds between successive polls (poll `j`
happens at elapsed time `5 * j`).  Polls after the first terminal one are
unconstrained, so the outcome is decided at that poll. -/
theorem claim_C1_wait_stops_at_first_terminal
    (polls : Nat → HttpResult) (maxWait j : Nat)
    (hpre : ∀ i, i < j → NonTerminal (polls i)) (hj : 5 * j < maxWait) :
    (get_test_status (polls j) = some (Json.str "completed") →
      wait_for_test_completion polls maxWait = true) ∧
    (get_test_status (polls j) = some (Json.str "failed") →
      wait_for_test_completion polls maxWait = false) ∧
    (get_test_status (polls j) = none →
      wait_for_test_completion polls maxWait = false) := by
  have hskip : wait_for_test_completion polls maxWait = waitFrom polls maxWait j :=
    waitFrom_skip polls maxWait j hj hpre j 0 (by omega) (Nat.zero_le j)
  refine ⟨?_, ?_, ?_⟩
  · intro hs; rw [hskip]; exact waitFrom_completed polls maxWait j hj hs
  · intro hs; rw [hskip]; exact waitFrom_failed polls maxWait j hj hs
  · intro hs; rw [hskip]; exact waitFrom_statusFailure polls maxWait j hj hs

/-- Witness for C1: a backend whose first poll already reports
`"completed"` makes the wait succeed. -/
theorem claim_C1_wait_stops_at_first_terminal_witness :
    wait_for_test_completion
      (fun _ => HttpResult.ok 200 (Json.obj [("status", Json.str "completed")]))
      20 = true :=
  (claim_C1_wait_stops_at_first_terminal
    (fun _ => HttpResult.ok 200 (Json.obj [("status", Json.str "completed")]))
    20 0 (fun i hi => absurd hi (Nat.not_lt_zero i)) (by omega)).1 rfl

/-- C2: for every well-formed body, `start_test` returns the non-empty
`test_id` taken from the response body when the backend answers HTTP 200
with a `test_id` field, and returns `None` when the backend answers any
non-200 status. -/
theorem claim_C2_start_test_contract
    (body errBody : Json) (s : String) (code : Nat)
    (hfield : body.get "test_id" = some (Json.str s)) (hne : s ≠ "")
    (hcode : code ≠ 200) :
    (start_test (HttpResult.ok 200 body) = some (Json.str s) ∧ s ≠ "") ∧
    start_test (HttpResult.ok code errBody) = none := by
  refine ⟨⟨?_, hne⟩, ?_⟩
  · simp [start_test, hfield]
  · simp [start_test, hcode]

/-- Witness for C2: a 200 response carrying `test_id` `"t1"` yields the
handle; a 500 response yields `None`. -/
theorem claim_C2_start_test_contract_witness :
    (start_test (HttpResult.ok 200 (Json.obj [("test_id", Json.str "t1")])) =
        some (Json.str "t1") ∧ "t1" ≠ "") ∧
    start_test (HttpResult.ok 500 Json.null) = none :=
  claim_C2_start_test_contract (Json.obj [("test_id", Json.str "t1")])
    Json.null "t1" 500 rfl (by decide) (by decide)

/-- C3: `get_test_results` returns the full JSON body exactly when the
backend answers HTTP 200 with `status` equal to `"completed"`; with any
other reported status it returns `None` with a "still running" message
(distinguished from the error messages); it also returns `None` on
non-200 responses and on network errors. -/
theorem claim_C3_get_test_results_contract
    (body pending : Json) (code : Nat)
    (hdone : body.get "status" = some (Json.str "completed"))
    (hnot : pending.get "status" ≠ some (Json.str "completed"))
    (hcode : code ≠ 200) :
    get_test_results (HttpResult.ok 200 body) = some body ∧
    (get_test_results (HttpResult.ok 200 pending) = none ∧
      get_test_results_msg (HttpResult.ok 200 pending) =
        ResultsMsg.stillRunning) ∧
    (get_test_results (HttpResult.ok code body) = none ∧
      get_test_results_msg (HttpResult.ok code body) =
        ResultsMsg.httpError code) ∧
    (get_test_results HttpResult.netError = none ∧
      get_test_results_msg HttpResult.netError = ResultsMsg.networkError) := by
  have h1 : pyEqStr (body.get "status") "completed" = true :=
    (pyEqStr_true_iff (body.get "status") "completed").mpr hdone
  have h2 : pyEqStr (pending.get "status") "completed" = false := by
    cases hb : pyEqStr (pending.get "status") "completed"
    · rfl
    · exact absurd ((pyEqStr_true_iff (pending.get "status") "completed").mp hb) hnot
  refine ⟨?_, ⟨?_, ?_⟩, ⟨?_, ?_⟩, rfl, rfl⟩
  · simp [get_test_results, h1]
  · simp [get_test_results, h2]
  · simp [get_test_results_msg, h2]
  · simp [get_test_results, hcode]
  · simp [get_test_results_msg, hcode]

/-- Witness for C3: a completed body is returned in full, a running body
gives `None` with the "still running" message, a 404 gives `None` with an
HTTP error message. -/
theorem claim_C3_get_test_results_contract_witness :
    get_test_results
      (HttpResult.ok 200 (Json.obj [("status", Json.str "completed")])) =
      some (Json.obj [("status", Json.str "completed")]) ∧
    (get_test_results
        (HttpResult.ok 200 (Json.obj [("status", Json.str "running")])) = none ∧
      get_test_results_msg
        (HttpResult.ok 200 (Json.obj [("status", Json.str "running")])) =
        ResultsMsg.stillRunning) ∧
    (get_test_results
        (HttpResult.ok 404 (Json.obj [("status", Json.str "completed")])) = none ∧
      get_test_results_msg
        (HttpResult.ok 404 (Json.obj [("status", Json.str "completed")])) =
        ResultsMsg.httpError 404) ∧
    (get_test_results HttpResult.netError = none ∧
      get_test_results_msg HttpResult.netError = ResultsMsg.networkError) :=
  claim_C3_get_test_results_contract
    (Json.obj [("status", Json.str "completed")])
    (Json.obj [("status", Json.str "running")]) 404 rfl
    (by simp [Json.get, lookupField]) (by decide)

/-- C4: when every poll reports a non-terminal status,
`wait_for_test_completion` terminates and returns `False` (timeout), and
the number of 5-second-interval polls it makes is the fixed function
`(maxWait + 4) / 5` of `maxWait` (the ceiling of `maxWait / 5`): poll `k`
happens at elapsed time `5 * k`, so exactly the polls with
`5 * k < maxWait` are made, all within `maxWait` seconds. -/
theorem claim_C4_wait_timeout_poll_count
    (polls : Nat → HttpResult) (maxWait : Nat)
    (H : ∀ i, 5 * i < maxWait → NonTerminal (polls i)) :
    wait_for_test_completion polls maxWait = false ∧
    wait_for_test_completion_count polls maxWait =
      (false, (maxWait + 4) / 5) := by
  constructor
  · exact waitFrom_allNonTerminal polls maxWait H maxWait 0 (by omega)
  · have h := waitFromCount_allNonTerminal polls maxWait H maxWait 0 (by omega)
    simpa [wait_for_test_completion_count] using h

/-- Witness for C4: a backend forever reporting `"running"` against a
12-second budget gets exactly 3 polls (at elapsed times 0, 5, 10) and a
`False` result. -/
theorem claim_C4_wait_timeout_poll_count_witness :
    wait_for_test_completion
      (fun _ => HttpResult.ok 200 (Json.obj [("status", Json.str "running")]))
      12 = false ∧
    wait_for_test_completion_count
      (fun _ => HttpResult.ok 200 (Json.obj [("status", Json.str "running")]))
      12 = (false, 3) :=
  claim_C4_wait_timeout_poll_count
    (fun _ => HttpResult.ok 200 (Json.obj [("status", Json.str "running")]))
    12 (fun _ _ => ⟨Json.str "running", rfl, rfl, rfl⟩)

/-- C5: `delete_test` returns `True` if and only if the backend answers
HTTP 200; it returns `False` on every non-200 status and on every network
error (the exception is caught, never propagated). -/
theorem claim_C5_delete_test_contract (code : Nat) (body : Json) :
    (delete_test (HttpResult.ok code body) = true ↔ code = 200) ∧
    delete_test HttpResult.netError = false := by
  constructor
  · simp [delete_test]
  · rfl

/-- C6: `get_test_status` returns the value of the `status` field of the
JSON body when the backend answers HTTP 200 (and the field is present),
and returns `None` on every non-200 response and on every network
error. -/
theorem claim_C6_get_test_status_contract
    (body : Json) (v : Json) (code : Nat)
    (hv : body.get "status" = some v) (hcode : code ≠ 200) :
    get_test_status (HttpResult.ok 200 body) = some v ∧
    get_test_status (HttpResult.ok code body) = none ∧
    get_test_status HttpResult.netError = none := by
  refine ⟨?_, ?_, rfl⟩
  · simp [get_test_status, hv]
  · simp [get_test_status, hcode]

/-- Witness for C6: a 200 body reporting `"running"` yields that status;
a 503 yields `None`. -/
theorem claim_C6_get_test_status_contract_witness :
    get_test_status
      (HttpResult.ok 200 (Json.obj [("status", Json.str "running")])) =
      some (Json.str "running") ∧
    get_test_status
      (HttpResult.ok 503 (Json.obj [("status", Json.str "running")])) = none ∧
    get_test_status HttpResult.netError = none :=
  claim_C6_get_test_status_contract
    (Json.obj [("status", Json.str "running")]) (Json.str "running") 503
    rfl (by decide)

/-- C7: every operation of the client catches a network-level failure
inside the operation and returns its sentinel value (`None` or `False`)
instead of propagating an exception.  In the embedding each operation is
a total function of the single `HttpResult` of the one request it makes,
so no operation retries a request. -/
theorem claim_C7_network_error_sentinels :
    start_test HttpResult.netError = none ∧
    start_simple_test HttpResult.netError = none ∧
    get_test_status HttpResult.netError = none ∧
    get_test_results HttpResult.netError = none ∧
    list_all_tests HttpResult.netError = none ∧
    delete_test HttpResult.netError = false :=
  ⟨rfl, rfl, rfl, rfl, rfl, rfl⟩

/-- C9: the config of `start_simple_test` has no `methods` key, carries
`global_config` with concurrency 3 and duration 10 and a target RPC URL
(the hard-coded mainnet URL, written `https://x` as a placeholder in the
spec scenario), and submitting it to a backend answering HTTP 200 with
body containing `test_id` `"abc"` yields the handle `"abc"`. -/
theorem claim_C9_simple_scenario :
    simple_test_config.get "methods" = none ∧
    simple_test_config.get "global_config" =
      some (Json.obj [("concurrency", Json.num 3), ("duration", Json.num 10)]) ∧
    simple_test_config.get "target_rpc_url" =
      some (Json.str "https://api.mainnet-beta.solana.com") ∧
    start_simple_test
      (HttpResult.ok 200 (Json.obj [("test_id", Json.str "abc")])) =
      some (Json.str "abc") := by
  refine ⟨?_, ?_, ?_, ?_⟩ <;> rfl

/-- C10: when the backend answers HTTP 200 with a JSON body that has no
`status` key, `get_test_status` returns the string `"unknown"` rather
than a failure sentinel, so `wait_for_test_completion` treats such a
response as a non-terminal status and keeps polling: its result on such a
first poll equals the wait restarted on the remaining polls with 5 fewer
seconds of budget. -/
theorem claim_C10_missing_status_key_keeps_polling
    (polls : Nat → HttpResult) (body : Json) (maxWait : Nat)
    (hmiss : body.get "status" = none)
    (hp : polls 0 = HttpResult.ok 200 body) (h0 : 0 < maxWait) :
    get_test_status (HttpResult.ok 200 body) = some (Json.str "unknown") ∧
    wait_for_test_completion polls maxWait =
      wait_for_test_completion (fun i => polls (i + 1)) (maxWait - 5) := by
  have hstat : get_test_status (HttpResult.ok 200 body) =
      some (Json.str "unknown") := by
    simp [get_test_status, hmiss]
  refine ⟨hstat, ?_⟩
  have hnt : NonTerminal (polls 0) := by
    rw [hp]
    exact ⟨Json.str "unknown", hstat, rfl, rfl⟩
  unfold wait_for_test_completion
  rw [waitFrom_step polls maxWait 0 (by omega) hnt]
  exact waitFrom_shift polls maxWait maxWait 0 (by omega)

/-- Witness for C10: a backend answering 200 with an empty object makes
the first poll report `"unknown"` and the loop keep going. -/
theorem claim_C10_missing_status_key_keeps_polling_witness :
    get_test_status (HttpResult.ok 200 (Json.obj [])) =
      some (Json.str "unknown") ∧
    wait_for_test_completion (fun _ => HttpResult.ok 200 (Json.obj [])) 7 =
      wait_for_test_completion (fun _ => HttpResult.ok 200 (Json.obj [])) 2 :=
  claim_C10_missing_status_key_keeps_polling
    (fun _ => HttpResult.ok 200 (Json.obj [])) (Json.obj []) 7 rfl rfl
    (by decide)

/-- C8: the top-level driver exits with a non-zero code exactly when the
initial health check fails (network error or non-200 status) or when
starting the test returns a falsy handle (`None` or an empty test id,
Python `if not test_id`); in every other run the sequence continues to
completion, through the final delete, whatever the later calls return. -/
theorem claim_C8_main_exit_policy (env : Interactions) :
    ((mainDriver env).1 = ExitCode.failure ↔
      env.health = HttpResult.netError ∨
      (∃ code body, env.health = HttpResult.ok code body ∧ code ≠ 200) ∨
      ((∃ body, env.health = HttpResult.ok 200 body) ∧
        pyFalsy (start_test env.start) = true)) ∧
    ((mainDriver env).1 = ExitCode.success →
      Step.deleteTest ∈ (mainDriver env).2) := by
  cases hh : env.health with
  | netError =>
    have hm : mainDriver env = (ExitCode.failure, [Step.healthCheck]) := by
      simp [mainDriver, hh]
    rw [hm]
    exact ⟨iff_of_true rfl (Or.inl rfl), fun h => ExitCode.noConfusion h⟩
  | ok code body =>
    by_cases hc : code = 200
    · subst hc
      by_cases hf : pyFalsy (start_test env.start) = true
      · have hm : mainDriver env =
            (ExitCode.failure,
              [Step.healthCheck, Step.listTests, Step.startTest]) := by
          simp [mainDriver, hh, hf]
        rw [hm]
        exact ⟨iff_of_true rfl (Or.inr (Or.inr ⟨⟨body, rfl⟩, hf⟩)),
          fun h => ExitCode.noConfusion h⟩
      · have hf' : pyFalsy (start_test env.start) = false := by
          cases hb : pyFalsy (start_test env.start)
          · rfl
          · exact absurd hb hf
        have hm : mainDriver env =
            (ExitCode.success,
              [Step.healthCheck, Step.listTests, Step.startTest,
                Step.waitForCompletion] ++
                (if wait_for_test_completion env.statusPolls 300 then
                  [Step.getResults] else []) ++
                [Step.listTests, Step.deleteTest]) := by
          simp [mainDriver, hh, hf']
        rw [hm]
        constructor
        · refine iff_of_false (fun h => ExitCode.noConfusion h) ?_
          rintro (h1 | ⟨c, b, h2, hc2⟩ | ⟨⟨b, h3⟩, h4⟩)
          · exact HttpResult.noConfusion h1
          · injection h2 with e1 e2
            exact hc2 e1.symm
          · exact hf h4
        · intro _
          simp
    · have hm : mainDriver env = (ExitCode.failure, [Step.healthCheck]) := by
        simp [mainDriver, hh, hc]
      rw [hm]
      exact ⟨iff_of_true rfl (Or.inr (Or.inl ⟨code, body, rfl, hc⟩)),
        fun h => ExitCode.noConfusion h⟩

/-- Witness for C5: a 200 response makes `delete_test` return `True`. -/
theorem claim_C5_delete_test_contract_witness :
    delete_test (HttpResult.ok 200 Json.null) = true :=
  (claim_C5_delete_test_contract 200 Json.null).1.mpr rfl

/-- Witness for C8: a run whose health check hits a network error exits
with a non-zero code. -/
theorem claim_C8_main_exit_policy_witness :
    (mainDriver
      ⟨HttpResult.netError, HttpResult.netError, HttpResult.netError,
        fun _ => HttpResult.netError, HttpResult.netError,
        HttpResult.netError, HttpResult.netError⟩).1 = ExitCode.failure :=
  (claim_C8_main_exit_policy
    ⟨HttpResult.netError, HttpResult.netError, HttpResult.netError,
      fun _ => HttpResult.netError, HttpResult.netError,
      HttpResult.netError, HttpResult.netError⟩).1.mpr (Or.inl rfl)
